import Mathlib

/-!
# Verification of the `skscope` documentation-gallery notebooks

Shallow embedding of the four notebook documents of the repository
(`linear-regression.ipynb`, which holds a linear-regression document and a
multinomial-regression document, `competing-risk-model.ipynb`,
`multivariate-failure-time-model.ipynb`, `abess_compare.ipynb`).

The numerical code in the notebooks operates on `numpy`/`jax` arrays; it is
embedded here over the exact reals, with vectors as functions `Fin n → ℝ`,
matrices as `Fin n → Fin p → ℝ`, and the `numpy` reductions (`mean`, `dot`,
matrix-vector product) as explicit finite sums.  Random draws made by the
notebooks (`np.random.*`) are modelled as explicit inputs: a theorem
quantified over those inputs holds for every realization of the draws.
Calls into the external `skscope` and `abess` solvers are modelled as
oracles (arbitrary input functions), since their code is not part of this
repository.
-/

namespace SkscopeGallery

noncomputable section

open Finset

/-- Embeds `np.mean` / `jnp.mean` of a length-`n` vector: the sum divided by `n`. -/
def npMean {n : ℕ} (v : Fin n → ℝ) : ℝ := (∑ i, v i) / (n : ℝ)

/-- Embeds `np.dot` / `jnp.dot` of two length-`n` vectors. -/
def npDot {n : ℕ} (u v : Fin n → ℝ) : ℝ := ∑ i, u i * v i

/-- Matrix-vector product `X @ b` / `np.matmul(X, b)`. -/
def matVec {n p : ℕ} (X : Fin n → Fin p → ℝ) (b : Fin p → ℝ) : Fin n → ℝ :=
  fun i => ∑ j, X i j * b j

/-! ## Linear regression (`linear-regression.ipynb`, first document) and the
benchmark's linear / non-negative objectives (`abess_compare.ipynb`). -/

/-- Function `ols_loss` from `linear-regression.ipynb`:
`loss = jnp.mean((y - X @ params) ** 2)`. -/
def ols_loss {n p : ℕ} (X : Fin n → Fin p → ℝ) (y : Fin n → ℝ)
    (params : Fin p → ℝ) : ℝ :=
  npMean (fun i => (y i - matVec X params i) ^ 2)

namespace Linear

/-- The `objective` defined in the Linear branch of `test_time` in
`abess_compare.ipynb`: `loss = jnp.mean((y - X @ params) ** 2)`. -/
def objective {n p : ℕ} (X : Fin n → Fin p → ℝ) (y : Fin n → ℝ)
    (params : Fin p → ℝ) : ℝ :=
  npMean (fun i => (y i - matVec X params i) ^ 2)

end Linear

namespace NonNeg

/-- The `objective` defined in the Non-Neg branch of `test_time` in
`abess_compare.ipynb`: `loss = jnp.mean((y - X @ params) ** 2)`. -/
def objective {n p : ℕ} (X : Fin n → Fin p → ℝ) (y : Fin n → ℝ)
    (params : Fin p → ℝ) : ℝ :=
  npMean (fun i => (y i - matVec X params i) ^ 2)

end NonNeg

namespace Logistic

/-- Entrywise clipping `jnp.clip(v, lo, hi)`. -/
def npClip (lo hi v : ℝ) : ℝ := max lo (min v hi)

/-- The `objective` defined in the Logistic branch of `test_time` in
`abess_compare.ipynb`:
`xbeta = jnp.clip(X @ params, -30, 30); jnp.mean(jnp.log(1 + jnp.exp(xbeta)) - y * xbeta)`. -/
def objective {n p : ℕ} (X : Fin n → Fin p → ℝ) (y : Fin n → ℝ)
    (params : Fin p → ℝ) : ℝ :=
  npMean (fun i => Real.log (1 + Real.exp (npClip (-30) 30 (matVec X params i)))
    - y i * npClip (-30) 30 (matVec X params i))

end Logistic

/-- The mean-squared error as the specification states it:
`(1/n) * Σ_i (y_i - (X @ params)_i)^2`. -/
def mse_spec {n p : ℕ} (X : Fin n → Fin p → ℝ) (y : Fin n → ℝ)
    (params : Fin p → ℝ) : ℝ :=
  (1 / (n : ℝ)) * ∑ i, (y i - ∑ j, X i j * params j) ^ 2

/-! ## Multinomial logistic regression (`linear-regression.ipynb`, second
document). -/

/-- Reshape `params.reshape((p, m))` with the numpy default row-major order:
entry `(j, k)` of the reshaped matrix is `params[j * m + k]`. -/
def reshape_pm {p m : ℕ} (params : Fin (p * m) → ℝ) : Fin p → Fin m → ℝ :=
  fun j k => params ⟨j.1 * m + k.1, by
    have hj := j.2
    have hk := k.2
    calc j.1 * m + k.1 < j.1 * m + m := Nat.add_lt_add_left hk _
    _ = (j.1 + 1) * m := by ring
    _ ≤ p * m := Nat.mul_le_mul_right m hj⟩

/-- The matrix `logits = jnp.dot(X, beta)` where `beta = params.reshape((p, m))`. -/
def logits {n p m : ℕ} (X : Fin n → Fin p → ℝ) (params : Fin (p * m) → ℝ) :
    Fin n → Fin m → ℝ :=
  fun i k => ∑ j, X i j * reshape_pm params j k

/-- The matrix `softmax_probs = jnp.exp(logits) / jnp.sum(jnp.exp(logits), axis=1, keepdims=True)`. -/
def softmax_probs {n p m : ℕ} (X : Fin n → Fin p → ℝ)
    (params : Fin (p * m) → ℝ) : Fin n → Fin m → ℝ :=
  fun i k => Real.exp (logits X params i k) / ∑ j, Real.exp (logits X params i j)

/-- Function `multinomial_regression_loss` from `linear-regression.ipynb`:
`loss = -jnp.mean(jnp.sum(y * jnp.log(softmax_probs), axis=1))`. -/
def multinomial_regression_loss {n p m : ℕ} (X : Fin n → Fin p → ℝ)
    (y : Fin n → Fin m → ℝ) (params : Fin (p * m) → ℝ) : ℝ :=
  -(npMean (fun i => ∑ k, y i k * Real.log (softmax_probs X params i k)))

/-- The softmax negative log-likelihood as the specification states it:
`-(1/n) Σ_i Σ_k y_ik log( exp((X B)_ik) / Σ_j exp((X B)_ij) )` with `B` the
row-major reshape of `params` to a `p × m` matrix. -/
def multinomial_nll_spec {n p m : ℕ} (X : Fin n → Fin p → ℝ)
    (y : Fin n → Fin m → ℝ) (params : Fin (p * m) → ℝ) : ℝ :=
  -((1 / (n : ℝ)) * ∑ i, ∑ k, y i k *
    Real.log (Real.exp (∑ j, X i j * reshape_pm params j k) /
      ∑ k2, Real.exp (∑ j, X i j * reshape_pm params j k2)))

/-! ## Survival models (`competing-risk-model.ipynb` and
`multivariate-failure-time-model.ipynb`).

The data matrices are embedded as functions: `x : Fin n → Fin p → ℝ` is the
covariate matrix, `y delta : Fin n → Fin 2 → ℝ` are the two-column observed
time and indicator arrays. -/

/-- The at-risk condition computed for `riskset` inside
`competing_risk_objective`:
`(y[:,0]>=y[i,0]) | ((delta[:,1]==0)&(delta[:,0]==1)&(y[:,0]<=y[i,0])&(y[:,1]>=y[i,0]))`. -/
def compRiskCond {n : ℕ} (y delta : Fin n → Fin 2 → ℝ) (i j : Fin n) : Prop :=
  y j 0 ≥ y i 0 ∨ (delta j 1 = 0 ∧ delta j 0 = 1 ∧ y j 0 ≤ y i 0 ∧ y j 1 ≥ y i 0)

instance compRiskCondDecidable {n : ℕ} (y delta : Fin n → Fin 2 → ℝ)
    (i j : Fin n) : Decidable (compRiskCond y delta i j) :=
  inferInstanceAs (Decidable (_ ∨ _))

/-- The 0/1 vector `riskset` of `competing_risk_objective` (`*1` applied to
the boolean mask). -/
def riskset {n : ℕ} (y delta : Fin n → Fin 2 → ℝ) (i j : Fin n) : ℝ :=
  if compRiskCond y delta i j then 1 else 0

/-- The argument of the logarithm in `competing_risk_objective`:
`jnp.dot(riskset, jnp.exp(Xbeta))`. -/
def competing_risk_inner {n p : ℕ} (x : Fin n → Fin p → ℝ)
    (y delta : Fin n → Fin 2 → ℝ) (params : Fin p → ℝ) (i : Fin n) : ℝ :=
  ∑ j, riskset y delta i j * Real.exp (matVec x params j)

/-- Function `competing_risk_objective` from `competing-risk-model.ipynb`:
`jnp.dot(delta[:,0]*delta[:,1],logsum)/n - jnp.dot(delta[:,0]*delta[:,1], Xbeta)/n`
where `logsum[i] = jnp.log(jnp.dot(riskset, jnp.exp(Xbeta)))`. -/
def competing_risk_objective {n p : ℕ} (x : Fin n → Fin p → ℝ)
    (y delta : Fin n → Fin 2 → ℝ) (params : Fin p → ℝ) : ℝ :=
  npDot (fun i => delta i 0 * delta i 1)
      (fun i => Real.log (competing_risk_inner x y delta params i)) / (n : ℝ)
    - npDot (fun i => delta i 0 * delta i 1) (matVec x params) / (n : ℝ)

/-- The boolean mask `t >= t[i]` (as a 0/1 vector) used inside
`multivariate_failure_objective` with `t = y[:,0]` and `t = y[:,1]`. -/
def atRisk {n : ℕ} (t : Fin n → ℝ) (i j : Fin n) : ℝ :=
  if t j ≥ t i then 1 else 0

/-- The argument of the logarithms in `multivariate_failure_objective`:
`jnp.dot(y[:,k] >= y[:,k][i], jnp.exp(Xbeta))`. -/
def mvf_inner {n p : ℕ} (x : Fin n → Fin p → ℝ) (t : Fin n → ℝ)
    (params : Fin p → ℝ) (i : Fin n) : ℝ :=
  ∑ j, atRisk t i j * Real.exp (matVec x params j)

/-- Function `multivariate_failure_objective` from
`multivariate-failure-time-model.ipynb`:
`(jnp.dot(delta[:,0],logsum1)+jnp.dot(delta[:,1],logsum2)-jnp.dot(delta[:,0], Xbeta)-jnp.dot(delta[:,1], Xbeta))/n`. -/
def multivariate_failure_objective {n p : ℕ} (x : Fin n → Fin p → ℝ)
    (y delta : Fin n → Fin 2 → ℝ) (params : Fin p → ℝ) : ℝ :=
  (npDot (fun i => delta i 0)
      (fun i => Real.log (mvf_inner x (fun j => y j 0) params i))
    + npDot (fun i => delta i 1)
      (fun i => Real.log (mvf_inner x (fun j => y j 1) params i))
    - npDot (fun i => delta i 0) (matVec x params)
    - npDot (fun i => delta i 1) (matVec x params)) / (n : ℝ)

/-- The competing-risk negative log partial likelihood as the specification
states it: `(1/n) Σ_{i : delta_i = 1, case_i = 1}
( log Σ_{j ∈ R_i} exp((x@params)_j) - (x@params)_i )`. -/
def competing_risk_spec {n p : ℕ} (x : Fin n → Fin p → ℝ)
    (y delta : Fin n → Fin 2 → ℝ) (params : Fin p → ℝ) : ℝ :=
  (1 / (n : ℝ)) *
    ∑ i in univ.filter (fun i => delta i 0 = 1 ∧ delta i 1 = 1),
      (Real.log (∑ j in univ.filter (fun j => compRiskCond y delta i j),
          Real.exp (matVec x params j))
        - matVec x params i)

/-- The multivariate-failure negative log partial likelihood as the
specification states it: `(1/n) Σ_{k < 2} Σ_{i : delta_ik = 1}
( log Σ_{j : y_jk ≥ y_ik} exp((x@params)_j) - (x@params)_i )`. -/
def mvf_spec {n p : ℕ} (x : Fin n → Fin p → ℝ)
    (y delta : Fin n → Fin 2 → ℝ) (params : Fin p → ℝ) : ℝ :=
  (1 / (n : ℝ)) *
    ∑ k : Fin 2, ∑ i in univ.filter (fun i => delta i k = 1),
      (Real.log (∑ j in univ.filter (fun j => y j k ≥ y i k),
          Real.exp (matVec x params j))
        - matVec x params i)

/-! ## Data simulators (`make_data` in `competing-risk-model.ipynb`,
`make_Clayton2_data` in `multivariate-failure-time-model.ipynb`).

The random draws made with `np.random.*` are explicit inputs: `x` is the
multivariate-normal draw, `u`/`u1`/`u2` the uniform draws on `[0,1]`,
`caseDraw` the `binomial(1, prob)` draw, `expDraw` the exponential draw with
scale `exp(-Xbeta)`, and `ctime`/`ctime1`/`ctime2` the uniform censoring
draws.  In the second notebook `lambda1`/`lambda2` are passed as arrays, so
they are embedded as per-observation vectors. -/

/-- The result triple `(x, y, delta)` of `make_data`. -/
structure SurvData (n pp : ℕ) where
  x : Fin n → Fin pp → ℝ
  y : Fin n → Fin 2 → ℝ
  delta : Fin n → Fin 2 → ℝ

/-- The vector `temp` inside `make_data`:
`-(1-mix)/mix + np.power(1-u+u*np.power(1-mix, np.exp(Xbeta)), np.exp(-Xbeta))/mix`. -/
def md_temp {n pp : ℕ} (x : Fin n → Fin pp → ℝ) (beta : Fin pp → ℝ)
    (u : Fin n → ℝ) (mix : ℝ) : Fin n → ℝ :=
  fun i => -(1 - mix) / mix +
    (1 - u i + u i * (1 - mix) ^ Real.exp (matVec x beta i)) ^
      Real.exp (-matVec x beta i) / mix

/-- The failure time inside `make_data` (before censoring):
`time = case*(-np.log(temp)) + (1-case)*np.random.exponential(np.exp(-Xbeta),n)`. -/
def md_time {n pp : ℕ} (x : Fin n → Fin pp → ℝ) (beta : Fin pp → ℝ)
    (u caseDraw expDraw : Fin n → ℝ) (mix : ℝ) : Fin n → ℝ :=
  fun i => caseDraw i * (-Real.log (md_temp x beta u mix i)) +
    (1 - caseDraw i) * expDraw i

/-- Function `make_data` from `competing-risk-model.ipynb`.  The censoring indicator
`delta[:,0] = (time < ctime)*1` is computed before `time` is replaced by
`np.minimum(time, ctime)`; the returned columns are
`y = [min(time,ctime), ctime]` and `delta = [(time<ctime)*1, case]`. -/
def make_data {n pp : ℕ} (x : Fin n → Fin pp → ℝ) (beta : Fin pp → ℝ)
    (u caseDraw expDraw ctime : Fin n → ℝ) (mix : ℝ) : SurvData n pp :=
  { x := x
    y := fun i => ![min (md_time x beta u caseDraw expDraw mix i) (ctime i),
      ctime i]
    delta := fun i =>
      ![if md_time x beta u caseDraw expDraw mix i < ctime i then 1 else 0,
        caseDraw i] }

/-- The result pair `(y, delta)` of `make_Clayton2_data`. -/
structure ClaytonData (n : ℕ) where
  y : Fin n → Fin 2 → ℝ
  delta : Fin n → Fin 2 → ℝ

/-- The vector `time2 = -np.log(1-u2)/lambda2` inside `make_Clayton2_data`. -/
def cl_time2 {n : ℕ} (u2 lambda2 : Fin n → ℝ) : Fin n → ℝ :=
  fun i => -Real.log (1 - u2 i) / lambda2 i

/-- The vector `time1` inside `make_Clayton2_data`:
`np.log(1-np.power(1-u2,-theta) + np.power(1-u1,-theta/(1+theta))*np.power(1-u2,-theta))/theta/lambda1`. -/
def cl_time1 {n : ℕ} (u1 u2 : Fin n → ℝ) (theta : ℝ) (lambda1 : Fin n → ℝ) :
    Fin n → ℝ :=
  fun i => Real.log (1 - (1 - u2 i) ^ (-theta) +
    (1 - u1 i) ^ (-theta / (1 + theta)) * (1 - u2 i) ^ (-theta)) / theta /
    lambda1 i

/-- Function `make_Clayton2_data` from `multivariate-failure-time-model.ipynb`: both
indicators `delta_k = (time_k < ctime_k)*1` are computed before the times
are censored with `np.minimum`. -/
def make_Clayton2_data {n : ℕ} (u1 u2 : Fin n → ℝ) (theta : ℝ)
    (lambda1 lambda2 ctime1 ctime2 : Fin n → ℝ) : ClaytonData n :=
  { y := fun i => ![min (cl_time1 u1 u2 theta lambda1 i) (ctime1 i),
      min (cl_time2 u2 lambda2 i) (ctime2 i)]
    delta := fun i =>
      ![if cl_time1 u1 u2 theta lambda1 i < ctime1 i then 1 else 0,
        if cl_time2 u2 lambda2 i < ctime2 i then 1 else 0] }

/-- The censoring invariant C9 states for `make_data`: 0/1 indicators, the
observed time is the minimum of failure and censoring time (hence bounded by
the second column), and `delta[:,0]` marks exactly `time < ctime`. -/
def MakeDataInvariant {n pp : ℕ} (x : Fin n → Fin pp → ℝ) (beta : Fin pp → ℝ)
    (u caseDraw expDraw ctime : Fin n → ℝ) (mix : ℝ) : Prop :=
  (∀ i k, (make_data x beta u caseDraw expDraw ctime mix).delta i k = 0 ∨
    (make_data x beta u caseDraw expDraw ctime mix).delta i k = 1) ∧
  (∀ i, (make_data x beta u caseDraw expDraw ctime mix).y i 0 =
    min (md_time x beta u caseDraw expDraw mix i) (ctime i)) ∧
  (∀ i, (make_data x beta u caseDraw expDraw ctime mix).y i 0 ≤
    (make_data x beta u caseDraw expDraw ctime mix).y i 1) ∧
  (∀ i, (make_data x beta u caseDraw expDraw ctime mix).delta i 0 = 1 ↔
    md_time x beta u caseDraw expDraw mix i < ctime i)

/-- The componentwise censoring invariant C9 states for
`make_Clayton2_data`. -/
def ClaytonInvariant {n : ℕ} (u1 u2 : Fin n → ℝ) (theta : ℝ)
    (lambda1 lambda2 ctime1 ctime2 : Fin n → ℝ) : Prop :=
  (∀ i k, (make_Clayton2_data u1 u2 theta lambda1 lambda2 ctime1 ctime2).delta i k = 0 ∨
    (make_Clayton2_data u1 u2 theta lambda1 lambda2 ctime1 ctime2).delta i k = 1) ∧
  (∀ i, (make_Clayton2_data u1 u2 theta lambda1 lambda2 ctime1 ctime2).y i 0 =
      min (cl_time1 u1 u2 theta lambda1 i) (ctime1 i) ∧
    (make_Clayton2_data u1 u2 theta lambda1 lambda2 ctime1 ctime2).y i 1 =
      min (cl_time2 u2 lambda2 i) (ctime2 i)) ∧
  (∀ i, ((make_Clayton2_data u1 u2 theta lambda1 lambda2 ctime1 ctime2).delta i 0 = 1 ↔
      cl_time1 u1 u2 theta lambda1 i < ctime1 i) ∧
    ((make_Clayton2_data u1 u2 theta lambda1 lambda2 ctime1 ctime2).delta i 1 = 1 ↔
      cl_time2 u2 lambda2 i < ctime2 i))

/-! ## The benchmark `test_time` (`abess_compare.ipynb`).

`test_time(n, p, s, random_state, rep)` loops over `rep` repetitions and the
three tasks `Linear` / `Non-Neg` / `Logistic`.  Per repetition it draws a
size-`s` support `true_support_set` (without replacement, so a set of
cardinality `s`) and per task fills `real_coef` with nonzero draws
(`choice([1,2,3]) * choice([±1])`) on that support, generates a dataset with
`make_glm_data(coef_=real_coef)`, fits `abess` and `skscope` on that same
dataset, and appends one result row per method.  The draws (`trueSupport`,
`vals`, the design/response draws) and the two external solvers (`fits`) are
explicit inputs of the embedding. -/

/-- The three tasks iterated by `test_time`. -/
inductive Task
  | linear
  | nonNeg
  | logistic
deriving DecidableEq

/-- The task label written into the result rows. -/
def Task.name : Task → String
  | .linear => "Linear"
  | .nonNeg => "Non-Neg"
  | .logistic => "Logistic"

/-- The iteration order `for task in [Linear, Non-Neg, Logistic]`. -/
def taskList : List Task := [.linear, .nonNeg, .logistic]

/-- One row of the result frame `res` (columns `Task, Model, Accuracy,
Time`). -/
structure ResRow where
  task : String
  model : String
  accuracy : ℚ
  time : ℝ

/-- The set of indices with a nonzero entry, `np.nonzero(v)[0]`. -/
def support {p : ℕ} (v : Fin p → ℝ) : Finset (Fin p) :=
  univ.filter (fun j => v j ≠ 0)

/-- The vector `real_coef`: zeros with the drawn values written on the support
(`real_coef[true_support_set] = rng.choice(np.arange(1, 4), size=s) * rng.choice(...)`). -/
def real_coef {p : ℕ} (trueSupport : Finset (Fin p)) (vals : Fin p → ℝ) :
    Fin p → ℝ :=
  fun j => if j ∈ trueSupport then vals j else 0

/-- A dataset as consumed by the benchmark: design matrix `x`, response `y`,
and the generating coefficient vector `coef_`. -/
structure GlmData (n p : ℕ) where
  x : Fin n → Fin p → ℝ
  y : Fin n → ℝ
  coef_ : Fin p → ℝ

/-- Model of the external `abess.datasets.make_glm_data(n, p, k, family,
coef_)`: it returns a dataset whose `coef_` field is the passed generating
coefficient vector and whose design matrix and response are random draws
(explicit inputs here). -/
def make_glm_data {n p : ℕ} (xDraw : Fin n → Fin p → ℝ) (yDraw : Fin n → ℝ)
    (coef : Fin p → ℝ) : GlmData n p :=
  { x := xDraw, y := yDraw, coef_ := coef }

/-- Accuracy `acc_abess = len(set(np.nonzero(model.coef_)[0]) & set(true_support_set)) / s`. -/
def acc_abess {p : ℕ} (modelCoef : Fin p → ℝ) (trueSupport : Finset (Fin p))
    (s : ℕ) : ℚ :=
  ((support modelCoef ∩ trueSupport).card : ℚ) / (s : ℚ)

/-- Accuracy `acc_skscope = len(set(np.nonzero(params)[0]) & set(np.nonzero(data.coef_)[0])) / s`. -/
def acc_skscope {p : ℕ} (params dataCoef : Fin p → ℝ) (s : ℕ) : ℚ :=
  ((support params ∩ support dataCoef).card : ℚ) / (s : ℚ)

/-- The outputs of the two external solvers on one (repetition, task)
dataset: `model.coef_` after `model.fit(X, y)`, the vector returned by
`solver.solve(objective, jit=True)`, and the two measured wall times. -/
structure Fit (p : ℕ) where
  abessCoef : Fin p → ℝ
  skParams : Fin p → ℝ
  tAbess : ℝ
  tSkscope : ℝ

/-- The two rows `res.loc[len(res)] = [task, model, acc, t]` appended for
one task: first the `abess` row, then the `skscope` row.  Both methods were
fit on the same dataset `data`; `dataCoef` is that dataset's `coef_`. -/
def taskRows {p : ℕ} (task : Task) (trueSupport : Finset (Fin p))
    (dataCoef : Fin p → ℝ) (fit : Fit p) (s : ℕ) : List ResRow :=
  [{ task := task.name, model := "abess",
     accuracy := acc_abess fit.abessCoef trueSupport s, time := fit.tAbess },
   { task := task.name, model := "skscope",
     accuracy := acc_skscope fit.skParams dataCoef s, time := fit.tSkscope }]

/-- The rows appended during repetition `i`: the task loop, with the dataset
of task `t` generated by `make_glm_data` from `real_coef` on the
repetition's `true_support_set`. -/
def repRows {n p : ℕ} (trueSupport : ℕ → Finset (Fin p))
    (vals : ℕ → Task → Fin p → ℝ) (xDraw : ℕ → Task → Fin n → Fin p → ℝ)
    (yDraw : ℕ → Task → Fin n → ℝ) (fits : ℕ → Task → Fit p) (s : ℕ)
    (i : ℕ) : List ResRow :=
  (taskList.map (fun t => taskRows t (trueSupport i)
    ((make_glm_data (xDraw i t) (yDraw i t)
      (real_coef (trueSupport i) (vals i t))).coef_)
    (fits i t) s)).flatten

/-- All rows appended by `test_time` over `for i in range(rep)`. -/
def test_time {n p : ℕ} (trueSupport : ℕ → Finset (Fin p))
    (vals : ℕ → Task → Fin p → ℝ) (xDraw : ℕ → Task → Fin n → Fin p → ℝ)
    (yDraw : ℕ → Task → Fin n → ℝ) (fits : ℕ → Task → Fit p) (s : ℕ) :
    ℕ → List ResRow
  | 0 => []
  | i + 1 => test_time trueSupport vals xDraw yDraw fits s i ++
      repRows trueSupport vals xDraw yDraw fits s i

/-! ## Concrete inputs used by the witness theorems. -/

/-- The concrete covariate matrix used in witnesses. -/
def wX : Fin 1 → Fin 1 → ℝ := fun _ _ => 0

/-- The concrete two-column array used in witnesses. -/
def wY : Fin 1 → Fin 2 → ℝ := fun _ _ => 1

/-- The concrete parameter vector used in witnesses. -/
def wParams : Fin 1 → ℝ := fun _ => 0

/-- An all-zero vector used as a concrete draw in witnesses. -/
def w0 : Fin 1 → ℝ := fun _ => 0

/-- A concrete support draw for the benchmark witnesses. -/
def wSupp : ℕ → Finset (Fin 1) := fun _ => {0}

/-- Concrete nonzero support values for the benchmark witnesses. -/
def wVals : ℕ → Task → Fin 1 → ℝ := fun _ _ _ => 1

/-- A concrete design-matrix draw for the benchmark witnesses. -/
def wXDraw : ℕ → Task → Fin 1 → Fin 1 → ℝ := fun _ _ => wX

/-- A concrete response draw for the benchmark witnesses. -/
def wYDraw : ℕ → Task → Fin 1 → ℝ := fun _ _ => w0

/-- Concrete solver outputs for the benchmark witnesses. -/
def wFits : ℕ → Task → Fit 1 := fun _ _ => ⟨w0, w0, 0, 0⟩

/-! ## Static inventory of the notebook documents.

Claims C1, C2 and C7 are about the surface structure of the notebooks: which
data generators they call, which losses they define, and exactly how the
external `ScopeSolver` object is constructed and consumed.  The inventory
below transcribes those facts from the source.  For every document,
`solverMemberAccesses` lists every attribute or method access that the
document performs on a `ScopeSolver` object, in source order, and `sites`
lists every `solver.solve(...)` call with the constructor arguments of the
solver it is called on (`dim` is the value of the first constructor
argument with the document's concrete constants, `lossParamLen` the length
of the parameter vector consumed by the loss handed to `solve`). -/

/-- The synthetic-data generators appearing in the notebooks. -/
inductive DataGen
  | rngNormalLinear
  | makeMultivariateGlmData
  | makeData
  | makeClayton2Data
  | makeGlmData
deriving DecidableEq

/-- The sparsity argument of a `ScopeSolver` construction: a single level
(`sparsity=s` or positional `k`), or a Python `range(lo, hi)` of levels. -/
inductive SparsityArg
  | level (s : ℕ)
  | levelRange (lo hi : ℕ)
deriving DecidableEq

/-- Returns `true` for either form of sparsity argument: a single level or a range
of levels. -/
def SparsityArg.isLevelOrRange : SparsityArg → Bool
  | .level _ => true
  | .levelRange _ _ => true

/-- One `solver.solve(...)` call site together with the construction of the
solver it is called on. -/
structure SolveSite where
  dim : ℕ
  lossParamLen : ℕ
  sparsity : SparsityArg
  lossName : String
  jit : Bool
deriving DecidableEq

/-- The transcription of one notebook document. -/
structure NotebookDoc where
  docName : String
  importsScopeSolverFromSkscope : Bool
  gens : List DataGen
  losses : List String
  sites : List SolveSite
  solverMemberAccesses : List String
  reports : List String
deriving DecidableEq

/-- First document of `linear-regression.ipynb`: OLS with and without an
intercept.  Data: `X = rng.normal(0,1,(n,p)); y = X @ beta + rng.normal(...)`
twice with `n, p = 150, 30`; solvers `ScopeSolver(p, sparsity=range(1,10), ...)`
and `ScopeSolver(p+1, sparsity=range(1,11), ...)`, both solved on `ols_loss`
(whose closed-over `X` has 31 columns at the second site). -/
def linearRegressionDoc : NotebookDoc :=
  { docName := "linear-regression (ols)"
    importsScopeSolverFromSkscope := true
    gens := [.rngNormalLinear, .rngNormalLinear]
    losses := ["ols_loss"]
    sites := [
      { dim := 30, lossParamLen := 30, sparsity := .levelRange 1 10,
        lossName := "ols_loss", jit := true },
      { dim := 31, lossParamLen := 31, sparsity := .levelRange 1 11,
        lossName := "ols_loss", jit := true }]
    solverMemberAccesses := ["solve", "solve"]
    reports := ["np.sum((params_scope-beta) ** 2).round(4)",
      "np.sum((params_scope-beta) ** 2).round(4)",
      "np.abs(intercept_scope - 1).round(4)"] }

/-- Second document of `linear-regression.ipynb`: multinomial logistic
regression.  Data: `make_multivariate_glm_data(n=500, p=20, k=5,
family=multinomial, M=3)`; solver `ScopeSolver(p*(m), k, group=...)` with
`p*m = 60`, solved on `multinomial_regression_loss` (reshapes its argument
to `(20, 3)`). -/
def multinomialDoc : NotebookDoc :=
  { docName := "linear-regression (multinomial)"
    importsScopeSolverFromSkscope := true
    gens := [.makeMultivariateGlmData]
    losses := ["multinomial_regression_loss"]
    sites := [
      { dim := 60, lossParamLen := 60, sparsity := .level 5,
        lossName := "multinomial_regression_loss", jit := true }]
    solverMemberAccesses := ["solve", "params", "params", "params"]
    reports := ["set(np.nonzero(solver.params.reshape((p, m)))[0]) vs set(np.nonzero(data.coef_)[0])",
      "solver.params.reshape((p, m)) vs data.coef_"] }

/-- Transcription of `competing-risk-model.ipynb`: data from `make_data` with `n, p, k =
200, 10, 2`; solver `ScopeSolver(p, k)` solved on
`competing_risk_objective`. -/
def competingRiskDoc : NotebookDoc :=
  { docName := "competing-risk-model"
    importsScopeSolverFromSkscope := true
    gens := [.makeData]
    losses := ["competing_risk_objective"]
    sites := [
      { dim := 10, lossParamLen := 10, sparsity := .level 2,
        lossName := "competing_risk_objective", jit := true }]
    solverMemberAccesses := ["solve", "get_result", "get_result"]
    reports := ["solver.get_result()[params] vs beta"] }

/-- Transcription of `multivariate-failure-time-model.ipynb`: data from `make_Clayton2_data`
with `n, p, k = 100, 10, 2`; solver `ScopeSolver(p, k)` solved on
`multivariate_failure_objective`. -/
def multivariateFailureDoc : NotebookDoc :=
  { docName := "multivariate-failure-time-model"
    importsScopeSolverFromSkscope := true
    gens := [.makeClayton2Data]
    losses := ["multivariate_failure_objective"]
    sites := [
      { dim := 10, lossParamLen := 10, sparsity := .level 2,
        lossName := "multivariate_failure_objective", jit := true }]
    solverMemberAccesses := ["solve", "get_result", "get_result"]
    reports := ["solver.get_result()[params] vs beta"] }

/-- Transcription of `abess_compare.ipynb`, parametric in the `test_time` arguments `n, p, s`:
per task one `make_glm_data` call, one `objective` definition on `p`
parameters, and one `ScopeSolver(p, sparsity=s)` solved on `objective`. -/
def benchmarkDoc (_n p s : ℕ) : NotebookDoc :=
  { docName := "abess_compare"
    importsScopeSolverFromSkscope := true
    gens := [.makeGlmData, .makeGlmData, .makeGlmData]
    losses := ["objective", "objective", "objective"]
    sites := [
      { dim := p, lossParamLen := p, sparsity := .level s,
        lossName := "objective", jit := true },
      { dim := p, lossParamLen := p, sparsity := .level s,
        lossName := "objective", jit := true },
      { dim := p, lossParamLen := p, sparsity := .level s,
        lossName := "objective", jit := true }]
    solverMemberAccesses := ["solve", "solve", "solve"]
    reports := ["res_all (Accuracy from set(np.nonzero(params)[0]) & set(np.nonzero(data.coef_)[0]))"] }

/-- The four concretely-parameterized notebook documents; `benchmarkDoc` is
quantified separately over its parameters.  Discarded here is the unused
`n` parameter of the benchmark. -/
def concreteDocs : List NotebookDoc :=
  [linearRegressionDoc, multinomialDoc, competingRiskDoc,
    multivariateFailureDoc]

/-- C1's pipeline: synthetic data generated, a loss defined, `ScopeSolver`
imported from `skscope` and `.solve` called on the loss, and at least one
printed/plotted comparison of the estimate against the generating truth. -/
def followsPipeline (nb : NotebookDoc) : Prop :=
  nb.gens ≠ [] ∧ nb.losses ≠ [] ∧
  nb.importsScopeSolverFromSkscope = true ∧ nb.sites ≠ [] ∧ nb.reports ≠ []

/-- C2's stable interface: every solver construction takes the dimension of
the loss's parameter space as first argument and a sparsity level or range,
`.solve` is called with a loss defined in the document, and the only
attributes or methods ever consumed on a solver object are `solve`,
`params` and `get_result`. -/
def stableInterfaceOnly (nb : NotebookDoc) : Prop :=
  (∀ site ∈ nb.sites, site.dim = site.lossParamLen ∧
    site.sparsity.isLevelOrRange = true ∧ site.lossName ∈ nb.losses) ∧
  (∀ a ∈ nb.solverMemberAccesses,
    a = "solve" ∨ a = "params" ∨ a = "get_result")

/-- C7: every `solve` call passes `jit=True`, and every loss defined in the
document is handed to some `solve` call. -/
def allLossesJitSolved (nb : NotebookDoc) : Prop :=
  (∀ site ∈ nb.sites, site.jit = true) ∧
  (∀ l ∈ nb.losses, ∃ site ∈ nb.sites, site.lossName = l)

instance followsPipelineDecidable (nb : NotebookDoc) :
    Decidable (followsPipeline nb) := by
  unfold followsPipeline; infer_instance

instance stableInterfaceOnlyDecidable (nb : NotebookDoc) :
    Decidable (stableInterfaceOnly nb) := by
  unfold stableInterfaceOnly; infer_instance

instance allLossesJitSolvedDecidable (nb : NotebookDoc) :
    Decidable (allLossesJitSolved nb) := by
  unfold allLossesJitSolved; infer_instance

/-! ## Helper lemmas. -/

/-- A sum weighted by a 0/1 `if`-indicator is the sum over the filtered
index set. -/
lemma sum_indicator_mul {n : ℕ} (P : Fin n → Prop) [DecidablePred P]
    (f : Fin n → ℝ) :
    (∑ j, (if P j then (1 : ℝ) else 0) * f j) = ∑ j in univ.filter P, f j := by
  rw [Finset.sum_filter]
  refine Finset.sum_congr rfl fun j _ => ?_
  split <;> simp

/-- A sum weighted by a vector with entries in `{0, 1}` is the sum over the
indices where the weight is `1`. -/
lemma sum_zero_one_mul {n : ℕ} {d : Fin n → ℝ}
    (hd : ∀ i, d i = 0 ∨ d i = 1) (f : Fin n → ℝ) :
    (∑ i, d i * f i) = ∑ i in univ.filter (fun i => d i = 1), f i := by
  rw [Finset.sum_filter]
  refine Finset.sum_congr rfl fun i _ => ?_
  rcases hd i with h | h <;> simp [h]

/-- Unfolding of `competing_risk_inner` to a filtered sum. -/
lemma competing_risk_inner_eq {n p : ℕ} (x : Fin n → Fin p → ℝ)
    (y delta : Fin n → Fin 2 → ℝ) (params : Fin p → ℝ) (i : Fin n) :
    competing_risk_inner x y delta params i =
      ∑ j in univ.filter (fun j => compRiskCond y delta i j),
        Real.exp (matVec x params j) := by
  simp only [competing_risk_inner, riskset]
  exact sum_indicator_mul _ _

/-- Unfolding of `mvf_inner` to a filtered sum. -/
lemma mvf_inner_eq {n p : ℕ} (x : Fin n → Fin p → ℝ) (t : Fin n → ℝ)
    (params : Fin p → ℝ) (i : Fin n) :
    mvf_inner x t params i =
      ∑ j in univ.filter (fun j => t j ≥ t i), Real.exp (matVec x params j) := by
  simp only [mvf_inner, atRisk]
  exact sum_indicator_mul _ _

/-- Nonzero values written on a support leave exactly that support
nonzero. -/
lemma support_real_coef {p : ℕ} (trueSupport : Finset (Fin p))
    (vals : Fin p → ℝ) (hvals : ∀ j, vals j ≠ 0) :
    support (real_coef trueSupport vals) = trueSupport := by
  ext j
  by_cases h : j ∈ trueSupport <;> simp [support, real_coef, h, hvals j]

/-- The cardinality of an intersection with a size-`s` set, divided by `s`,
lies in `[0, 1]`. -/
lemma inter_card_div_mem_unit {p : ℕ} (est target : Finset (Fin p)) {s : ℕ}
    (h : target.card = s) :
    0 ≤ ((est ∩ target).card : ℚ) / (s : ℚ) ∧
    ((est ∩ target).card : ℚ) / (s : ℚ) ≤ 1 := by
  constructor
  · positivity
  · refine div_le_one_of_le₀ ?_ (by positivity)
    exact_mod_cast (Finset.card_le_card Finset.inter_subset_right).trans h.le

/-- C3: the linear-regression notebook's `ols_loss` and the benchmark's
linear and non-negative `objective` all equal the mean-squared error
`(1/n) Σ_i (y_i - (X @ params)_i)^2` in exact real arithmetic. -/
theorem losses_are_mse {n p : ℕ} (X : Fin n → Fin p → ℝ) (y : Fin n → ℝ)
    (params : Fin p → ℝ) :
    ols_loss X y params = mse_spec X y params ∧
    Linear.objective X y params = mse_spec X y params ∧
    NonNeg.objective X y params = mse_spec X y params := by
  refine ⟨?_, ?_, ?_⟩ <;>
    simp only [ols_loss, Linear.objective, NonNeg.objective, npMean, matVec,
      mse_spec] <;> ring

/-- C4: `multinomial_regression_loss` equals the negative log-likelihood of
the softmax model averaged over the `n` observations, with `params` reshaped
row-major to a `p × m` coefficient matrix. -/
theorem multinomial_loss_is_nll {n p m : ℕ} (X : Fin n → Fin p → ℝ)
    (y : Fin n → Fin m → ℝ) (params : Fin (p * m) → ℝ) :
    multinomial_regression_loss X y params = multinomial_nll_spec X y params := by
  simp only [multinomial_regression_loss, npMean, softmax_probs, logits,
    multinomial_nll_spec]
  ring

/-- C5: when the indicator columns of `delta` take only the values `0` and
`1` (as the simulators produce them), `competing_risk_objective` and
`multivariate_failure_objective` equal the stated negative log partial
likelihoods scaled by `1/n`. -/
theorem survival_objectives_match {n p : ℕ} (x : Fin n → Fin p → ℝ)
    (y delta : Fin n → Fin 2 → ℝ) (params : Fin p → ℝ)
    (h01 : ∀ i k, delta i k = 0 ∨ delta i k = 1) :
    competing_risk_objective x y delta params =
      competing_risk_spec x y delta params ∧
    multivariate_failure_objective x y delta params =
      mvf_spec x y delta params := by
  constructor
  · have hprod : ∀ i, delta i 0 * delta i 1 = 0 ∨ delta i 0 * delta i 1 = 1 := by
      intro i
      rcases h01 i 0 with h0 | h0 <;> rcases h01 i 1 with h1 | h1 <;>
        simp [h0, h1]
    have hfilter :
        univ.filter (fun i => delta i 0 * delta i 1 = 1) =
          univ.filter (fun i => delta i 0 = 1 ∧ delta i 1 = 1) := by
      refine Finset.filter_congr fun i _ => ?_
      rcases h01 i 0 with h0 | h0 <;> rcases h01 i 1 with h1 | h1 <;>
        simp [h0, h1]
    simp only [competing_risk_objective, npDot, competing_risk_spec,
      sum_zero_one_mul hprod, hfilter, competing_risk_inner_eq,
      Finset.sum_sub_distrib]
    ring
  · have h0 : ∀ i, delta i 0 = 0 ∨ delta i 0 = 1 := fun i => h01 i 0
    have h1 : ∀ i, delta i 1 = 0 ∨ delta i 1 = 1 := fun i => h01 i 1
    simp only [multivariate_failure_objective, npDot, mvf_spec,
      sum_zero_one_mul h0, sum_zero_one_mul h1, mvf_inner_eq,
      Fin.sum_univ_two, Finset.sum_sub_distrib]
    ring

/-- Witness for C5 at a concrete instance (`n = p = 1`, all-ones `delta`). -/
theorem survival_objectives_match_witness :
    (∀ i k, wY i k = 0 ∨ wY i k = 1) ∧
    (competing_risk_objective wX wY wY wParams =
        competing_risk_spec wX wY wY wParams ∧
      multivariate_failure_objective wX wY wY wParams =
        mvf_spec wX wY wY wParams) :=
  ⟨fun _ _ => Or.inr rfl,
    survival_objectives_match wX wY wY wParams (fun _ _ => Or.inr rfl)⟩

/-- C8: the argument of every logarithm evaluated inside
`competing_risk_objective` and `multivariate_failure_objective` is strictly
positive, for every parameter vector, every observation `i`, and every data
realization: the at-risk indicator assigns `1` to observation `i` itself, so
the dot product is at least `exp((x@params)_i) > 0`. -/
theorem log_arguments_positive {n p : ℕ} (x : Fin n → Fin p → ℝ)
    (y delta : Fin n → Fin 2 → ℝ) (t : Fin n → ℝ) (params : Fin p → ℝ)
    (i : Fin n) :
    0 < competing_risk_inner x y delta params i ∧
    0 < mvf_inner x t params i := by
  constructor
  · refine Finset.sum_pos' (fun j _ => ?_) ⟨i, Finset.mem_univ i, ?_⟩
    · exact mul_nonneg (by unfold riskset; split <;> norm_num)
        (Real.exp_pos _).le
    · have h1 : riskset y delta i i = 1 :=
        if_pos (Or.inl (le_refl (y i 0)))
      rw [h1, one_mul]
      exact Real.exp_pos _
  · refine Finset.sum_pos' (fun j _ => ?_) ⟨i, Finset.mem_univ i, ?_⟩
    · exact mul_nonneg (by unfold atRisk; split <;> norm_num)
        (Real.exp_pos _).le
    · have h1 : atRisk t i i = 1 := if_pos (le_refl (t i))
      rw [h1, one_mul]
      exact Real.exp_pos _

/-- C9: for every realization of the random draws (the binomial draw taking
values in `{0,1}`), `make_data` and `make_Clayton2_data` maintain the
censoring invariant: 0/1 indicator columns, observed times equal to the
minimum of failure and censoring times, and indicators marking exactly
`time < ctime`. -/
theorem simulators_censoring_invariant {n pp : ℕ} (x : Fin n → Fin pp → ℝ)
    (beta : Fin pp → ℝ) (u caseDraw expDraw ctime : Fin n → ℝ) (mix : ℝ)
    (u1 u2 : Fin n → ℝ) (theta : ℝ)
    (lambda1 lambda2 ctime1 ctime2 : Fin n → ℝ)
    (hcase : ∀ i, caseDraw i = 0 ∨ caseDraw i = 1) :
    MakeDataInvariant x beta u caseDraw expDraw ctime mix ∧
    ClaytonInvariant u1 u2 theta lambda1 lambda2 ctime1 ctime2 := by
  constructor
  · refine ⟨fun i k => ?_, fun i => rfl, fun i => min_le_right _ _, fun i => ?_⟩
    · match k with
      | 0 =>
        simp only [make_data, Matrix.cons_val_zero]
        split <;> simp
      | 1 =>
        simpa only [make_data, Matrix.cons_val_one, Matrix.head_cons] using
          hcase i
    · simp only [make_data, Matrix.cons_val_zero]
      split <;> rename_i h <;> simp [h]
  · refine ⟨fun i k => ?_, fun i => ⟨rfl, rfl⟩, fun i => ⟨?_, ?_⟩⟩
    · match k with
      | 0 =>
        simp only [make_Clayton2_data, Matrix.cons_val_zero]
        split <;> simp
      | 1 =>
        simp only [make_Clayton2_data, Matrix.cons_val_one, Matrix.head_cons]
        split <;> simp
    · simp only [make_Clayton2_data, Matrix.cons_val_zero]
      split <;> rename_i h <;> simp [h]
    · simp only [make_Clayton2_data, Matrix.cons_val_one, Matrix.head_cons]
      split <;> rename_i h <;> simp [h]

/-- Witness for C9 at a concrete realization (`n = pp = 1`, all draws `0`,
`mix = theta = 1`). -/
theorem simulators_censoring_invariant_witness :
    (∀ i, w0 i = 0 ∨ w0 i = 1) ∧
    (MakeDataInvariant wX wParams w0 w0 w0 w0 1 ∧
      ClaytonInvariant w0 w0 1 w0 w0 w0 w0) :=
  ⟨fun _ => Or.inl rfl,
    simulators_censoring_invariant wX wParams w0 w0 w0 w0 1 w0 w0 1 w0 w0 w0
      w0 (fun _ => Or.inl rfl)⟩

/-- C1: every notebook document follows the four-step pipeline: it generates
synthetic data from a closed-form statistical model, defines a loss
function, calls `ScopeSolver.solve` with `ScopeSolver` imported from the
external `skscope` package, and prints or plots the estimated coefficients
against the generating ground truth; the benchmark document does so for
every parameter setting. -/
theorem notebooks_follow_pipeline :
    (∀ nb ∈ concreteDocs, followsPipeline nb) ∧
    ∀ n p s : ℕ, followsPipeline (benchmarkDoc n p s) := by
  constructor
  · decide
  · intro n p s
    refine ⟨?_, ?_, rfl, ?_, ?_⟩ <;> simp [benchmarkDoc]

/-- Witness for C1 at the concrete linear-regression document. -/
theorem notebooks_follow_pipeline_witness :
    linearRegressionDoc ∈ concreteDocs ∧ followsPipeline linearRegressionDoc :=
  ⟨by decide, notebooks_follow_pipeline.1 linearRegressionDoc (by decide)⟩

/-- C2: at every `ScopeSolver` use site, the solver is constructed with the
parameter-space dimension as first argument and a sparsity level or range,
`.solve` is called with a loss function, and the estimate is read back only
through the value returned by `.solve`, the `.params` attribute, or
`get_result()`. -/
theorem solver_consumed_via_stable_interface :
    (∀ nb ∈ concreteDocs, stableInterfaceOnly nb) ∧
    ∀ n p s : ℕ, stableInterfaceOnly (benchmarkDoc n p s) := by
  constructor
  · decide
  · intro n p s
    constructor
    · intro site hsite
      simp only [benchmarkDoc, List.mem_cons, List.not_mem_nil, or_false] at hsite
      rcases hsite with h | h | h <;> subst h <;>
        exact ⟨rfl, rfl, by simp [benchmarkDoc, SparsityArg.isLevelOrRange]⟩
    · intro a ha
      simp only [benchmarkDoc, List.mem_cons, List.not_mem_nil, or_false] at ha
      rcases ha with h | h | h <;> subst h <;> simp

/-- Witness for C2 at the concrete multinomial document. -/
theorem solver_consumed_via_stable_interface_witness :
    multinomialDoc ∈ concreteDocs ∧ stableInterfaceOnly multinomialDoc :=
  ⟨by decide, solver_consumed_via_stable_interface.1 multinomialDoc (by decide)⟩

/-- C7: every `solver.solve` call in the repository passes the loss together
with `jit=True`, and every loss defined in the repository is handed to such
a call. -/
theorem every_loss_solved_with_jit :
    (∀ nb ∈ concreteDocs, allLossesJitSolved nb) ∧
    ∀ n p s : ℕ, allLossesJitSolved (benchmarkDoc n p s) := by
  constructor
  · decide
  · intro n p s
    constructor
    · intro site hsite
      simp only [benchmarkDoc, List.mem_cons, List.not_mem_nil, or_false] at hsite
      rcases hsite with h | h | h <;> subst h <;> rfl
    · intro l hl
      simp only [benchmarkDoc, List.mem_cons, List.not_mem_nil, or_false] at hl
      rcases hl with h | h | h <;> subst h <;>
        exact ⟨SolveSite.mk p p (SparsityArg.level s) "objective" true,
          by simp [benchmarkDoc], rfl⟩

/-- Witness for C7 at the concrete competing-risk document. -/
theorem every_loss_solved_with_jit_witness :
    competingRiskDoc ∈ concreteDocs ∧ allLossesJitSolved competingRiskDoc :=
  ⟨by decide, every_loss_solved_with_jit.1 competingRiskDoc (by decide)⟩

/-- C6: for every repetition and task, `test_time` appends exactly the two
result rows (one labelled abess, one labelled skscope, both fit on the
(repetition, task) dataset), each Accuracy being the number of indices in
both the method's estimated support and the true support divided by `s`;
the support of `data.coef_` (against which skscope is scored) coincides
with the size-`s` `true_support_set` (against which abess is scored). -/
theorem benchmark_two_rows_same_support {n p : ℕ}
    (trueSupport : ℕ → Finset (Fin p)) (vals : ℕ → Task → Fin p → ℝ)
    (xDraw : ℕ → Task → Fin n → Fin p → ℝ) (yDraw : ℕ → Task → Fin n → ℝ)
    (fits : ℕ → Task → Fit p) (s : ℕ)
    (hcard : ∀ i, (trueSupport i).card = s)
    (hvals : ∀ i t j, vals i t j ≠ 0) :
    ∀ (i : ℕ) (t : Task),
      support ((make_glm_data (xDraw i t) (yDraw i t)
        (real_coef (trueSupport i) (vals i t))).coef_) = trueSupport i ∧
      (trueSupport i).card = s ∧
      taskRows t (trueSupport i)
          ((make_glm_data (xDraw i t) (yDraw i t)
            (real_coef (trueSupport i) (vals i t))).coef_) (fits i t) s =
        [{ task := t.name, model := "abess",
           accuracy := ((support (fits i t).abessCoef ∩ trueSupport i).card : ℚ) / (s : ℚ),
           time := (fits i t).tAbess },
         { task := t.name, model := "skscope",
           accuracy := ((support (fits i t).skParams ∩ trueSupport i).card : ℚ) / (s : ℚ),
           time := (fits i t).tSkscope }] := by
  intro i t
  have hsupp : support (real_coef (trueSupport i) (vals i t)) = trueSupport i :=
    support_real_coef _ _ (hvals i t)
  exact ⟨hsupp, hcard i,
    by simp [taskRows, acc_abess, acc_skscope, make_glm_data, hsupp]⟩

/-- Witness for C6 at a concrete instance (`n = p = s = 1`, repetition `0`,
Linear task). -/
theorem benchmark_two_rows_same_support_witness :
    (∀ i, (wSupp i).card = 1) ∧ (∀ i t j, wVals i t j ≠ 0) ∧
    (support ((make_glm_data (wXDraw 0 Task.linear) (wYDraw 0 Task.linear)
        (real_coef (wSupp 0) (wVals 0 Task.linear))).coef_) = wSupp 0 ∧
      (wSupp 0).card = 1 ∧
      taskRows Task.linear (wSupp 0)
          ((make_glm_data (wXDraw 0 Task.linear) (wYDraw 0 Task.linear)
            (real_coef (wSupp 0) (wVals 0 Task.linear))).coef_)
          (wFits 0 Task.linear) 1 =
        [{ task := Task.linear.name, model := "abess",
           accuracy := ((support (wFits 0 Task.linear).abessCoef ∩ wSupp 0).card : ℚ) / (1 : ℚ),
           time := (wFits 0 Task.linear).tAbess },
         { task := Task.linear.name, model := "skscope",
           accuracy := ((support (wFits 0 Task.linear).skParams ∩ wSupp 0).card : ℚ) / (1 : ℚ),
           time := (wFits 0 Task.linear).tSkscope }]) :=
  ⟨fun _ => rfl, fun _ _ _ => one_ne_zero,
    benchmark_two_rows_same_support wSupp wVals wXDraw wYDraw wFits 1
      (fun _ => rfl) (fun _ _ _ => one_ne_zero) 0 Task.linear⟩

/-- C10: every call to `test_time` appends exactly two rows per task per
repetition — `6 * rep` rows in total — and every recorded Accuracy lies in
the closed interval `[0, 1]`. -/
theorem test_time_row_count_and_accuracy_range {n p : ℕ}
    (trueSupport : ℕ → Finset (Fin p)) (vals : ℕ → Task → Fin p → ℝ)
    (xDraw : ℕ → Task → Fin n → Fin p → ℝ) (yDraw : ℕ → Task → Fin n → ℝ)
    (fits : ℕ → Task → Fit p) (s rep : ℕ)
    (hcard : ∀ i, (trueSupport i).card = s)
    (hvals : ∀ i t j, vals i t j ≠ 0) :
    (test_time trueSupport vals xDraw yDraw fits s rep).length = 6 * rep ∧
    ∀ row ∈ test_time trueSupport vals xDraw yDraw fits s rep,
      0 ≤ row.accuracy ∧ row.accuracy ≤ 1 := by
  constructor
  · induction rep with
    | zero => rfl
    | succ k ih =>
      have hrep : (repRows trueSupport vals xDraw yDraw fits s k).length = 6 := rfl
      simp only [test_time, List.length_append, ih, hrep]
      ring
  · induction rep with
    | zero => intro row hrow; cases hrow
    | succ k ih =>
      intro row hrow
      simp only [test_time, List.mem_append] at hrow
      rcases hrow with h | h
      · exact ih row h
      · have hbound : ∀ t : Task, ∀ row2 ∈ taskRows t (trueSupport k)
            ((make_glm_data (xDraw k t) (yDraw k t)
              (real_coef (trueSupport k) (vals k t))).coef_) (fits k t) s,
            0 ≤ row2.accuracy ∧ row2.accuracy ≤ 1 := by
          intro t row2 hrow2
          have hsupp : support (real_coef (trueSupport k) (vals k t)) =
              trueSupport k := support_real_coef _ _ (hvals k t)
          simp only [taskRows, List.mem_cons, List.not_mem_nil, or_false]
            at hrow2
          rcases hrow2 with h2 | h2 <;> subst h2
          · exact inter_card_div_mem_unit _ _ (hcard k)
          · simpa [acc_skscope, make_glm_data, hsupp] using
              inter_card_div_mem_unit (support (fits k t).skParams)
                (trueSupport k) (hcard k)
        simp only [repRows, taskList, List.map, List.flatten,
          List.append_nil, List.mem_append] at h
        rcases h with h | h | h
        · exact hbound .linear row h
        · exact hbound .nonNeg row h
        · exact hbound .logistic row h

/-- Witness for C10 at a concrete instance (`n = p = s = 1`, one
repetition). -/
theorem test_time_row_count_witness :
    (∀ i, (wSupp i).card = 1) ∧ (∀ i t j, wVals i t j ≠ 0) ∧
    ((test_time wSupp wVals wXDraw wYDraw wFits 1 1).length = 6 * 1 ∧
      ∀ row ∈ test_time wSupp wVals wXDraw wYDraw wFits 1 1,
        0 ≤ row.accuracy ∧ row.accuracy ≤ 1) :=
  ⟨fun _ => rfl, fun _ _ _ => one_ne_zero,
    test_time_row_count_and_accuracy_range wSupp wVals wXDraw wYDraw wFits 1 1
      (fun _ => rfl) (fun _ _ _ => one_ne_zero)⟩

end

end SkscopeGallery
